import Mathlib

/-!
# new-controller: the NewResource reconciler

A shallow embedding of `controllers/resource_controller.go` and
`api/v1alpha1/newresource_types.go`.

The Go code is effectful: it talks to a Kubernetes client, reads the clock,
bumps process-global Prometheus collectors and writes log lines.  All of that
is made explicit here as one `World` value threaded through every function.
The client is a parameter (`NewResourceReconciler`), given as state-passing
functions over an arbitrary store state `σ`.

The work queue and the worker pool that call `Reconcile` are not part of the
repository; they are modelled from sections 4.1 and 4.3 of the specification
as a transition system over all interleavings.
-/

namespace NewController

/-! ## api/v1alpha1/newresource_types.go -/

/-- The `metav1.TypeMeta` struct embedded in `NewResource`. -/
structure TypeMeta where
  Kind : String
  APIVersion : String
  deriving DecidableEq, Repr

/-- The fields of `metav1.ObjectMeta` that identify and version an object. -/
structure ObjectMeta where
  Name : String
  Namespace : String
  ResourceVersion : String
  Generation : Int
  deriving DecidableEq, Repr

structure NewResourceSpec where
  Foo : String
  ReconcileTrigger : Bool
  deriving DecidableEq, Repr

structure NewResourceStatus where
  Ready : Bool
  deriving DecidableEq, Repr

structure NewResource where
  typeMeta : TypeMeta
  objectMeta : ObjectMeta
  Spec : NewResourceSpec
  Status : NewResourceStatus
  deriving DecidableEq, Repr

/-- The Go zero value of `NewResource`, what `var resource newv1.NewResource` holds. -/
def NewResource.zero : NewResource :=
  { typeMeta := { Kind := "", APIVersion := "" }
    objectMeta := { Name := "", Namespace := "", ResourceVersion := "", Generation := 0 }
    Spec := { Foo := "", ReconcileTrigger := false }
    Status := { Ready := false } }

/-- The Go statement `resource.Status.Ready = true`. -/
def NewResource.setReady (resource : NewResource) : NewResource :=
  { resource with Status := { resource.Status with Ready := true } }

/-! ## Library types the controller is written against -/

/-- The type `metav1.StatusReason`, a Go string type. -/
abbrev StatusReason := String

/-- The constant `metav1.StatusReasonUnknown`. -/
def StatusReasonUnknown : StatusReason := ""

/-- The constant `metav1.StatusReasonNotFound`. -/
def StatusReasonNotFound : StatusReason := "NotFound"

/-- The constant `metav1.StatusReasonConflict`. -/
def StatusReasonConflict : StatusReason := "Conflict"

/-- The table `knownReasons` of `k8s.io/apimachinery/pkg/api/errors`: every
reason the library declares except `StatusReasonUnknown`. -/
def knownReasons : List StatusReason :=
  ["Unauthorized", "Forbidden", "NotFound", "AlreadyExists", "Conflict", "Gone", "Invalid",
   "ServerTimeout", "Timeout", "TooManyRequests", "BadRequest", "MethodNotAllowed",
   "NotAcceptable", "RequestEntityTooLarge", "UnsupportedMediaType", "InternalError",
   "Expired", "ServiceUnavailable"]

/-- A non-nil Go `error`, as `reasonAndCodeForError` sees it: the reason and
the HTTP code of its API status, and its message.  An error that is not an API
status error (`errors.New(...)`) has reason `StatusReasonUnknown` and code 0.
A Go value of type `error` is an `Option Error`, with `none` for `nil`. -/
structure Error where
  Reason : StatusReason
  Code : Int
  Message : String
  deriving DecidableEq, Repr

/-- The function `apierrors.IsNotFound`: the reason is NotFound, or the reason
is not a known one and the code is `http.StatusNotFound`. -/
def IsNotFound (err : Error) : Bool :=
  if err.Reason = StatusReasonNotFound then true
  else if err.Reason ∉ knownReasons ∧ err.Code = 404 then true
  else false

/-- The function `apierrors.IsConflict`: the reason is Conflict, or the reason
is not a known one and the code is `http.StatusConflict`. -/
def IsConflict (err : Error) : Bool :=
  if err.Reason = StatusReasonConflict then true
  else if err.Reason ∉ knownReasons ∧ err.Code = 409 then true
  else false

/-- The function `client.IgnoreNotFound`: nil on nil and on not-found errors,
every other error unmodified. -/
def IgnoreNotFound (err : Option Error) : Option Error :=
  match err with
  | none => none
  | some e => if IsNotFound e then none else some e

/-- The key `types.NamespacedName`. -/
structure NamespacedName where
  Namespace : String
  Name : String
  deriving DecidableEq, Repr

/-- The struct `ctrl.Request`. -/
structure Request where
  NamespacedName : NamespacedName
  deriving DecidableEq, Repr

/-- The struct `ctrl.Result`; `RequeueAfter` is a `time.Duration` in nanoseconds. -/
structure Result where
  Requeue : Bool
  RequeueAfter : Int
  deriving DecidableEq, Repr

/-- The Go composite literal `ctrl.Result{}`. -/
def Result.empty : Result := { Requeue := false, RequeueAfter := 0 }

/-! ## Prometheus collectors -/

/-- A `prometheus.CounterVec`: its options, its label names, and one counter
for every label-value combination used so far, in order of first use. -/
structure CounterVec where
  Name : String
  Help : String
  labelNames : List String
  children : List (List String × Nat)
  deriving DecidableEq, Repr

/-- Increment the child addressed by `lvs` in a list of children, creating it
(at zero) first when it does not exist yet. -/
def incChild (lvs : List String) : List (List String × Nat) → List (List String × Nat)
  | [] => [(lvs, 1)]
  | (k, v) :: rest => if k = lvs then (k, v + 1) :: rest else (k, v) :: incChild lvs rest

/-- The value of the child addressed by `lvs`; a child never used reads zero. -/
def childValue (lvs : List String) : List (List String × Nat) → Nat
  | [] => 0
  | (k, v) :: rest => if k = lvs then v else childValue lvs rest

/-- The call `vec.WithLabelValues(lvs...).Inc()`. -/
def CounterVec.inc (vec : CounterVec) (lvs : List String) : CounterVec :=
  { vec with children := incChild lvs vec.children }

/-- The value a scrape shows for `vec{lvs}`. -/
def CounterVec.value (vec : CounterVec) (lvs : List String) : Nat :=
  childValue lvs vec.children

/-- The sum of the counter over all its label-value combinations. -/
def CounterVec.sum (vec : CounterVec) : Nat :=
  (vec.children.map Prod.snd).sum

/-- A `prometheus.HistogramVec`: its options, its label names, and for every
label-value combination the observations made so far, newest first.
Observations are kept as `time.Duration` nanoseconds; the conversion to
floating-point seconds and the bucketing are not modelled. -/
structure HistogramVec where
  Name : String
  Help : String
  labelNames : List String
  children : List (List String × List Int)
  deriving DecidableEq, Repr

/-- Add `x` to the observations of the child addressed by `lvs`. -/
def observeChild (lvs : List String) (x : Int) :
    List (List String × List Int) → List (List String × List Int)
  | [] => [(lvs, [x])]
  | (k, obs) :: rest =>
    if k = lvs then (k, x :: obs) :: rest else (k, obs) :: observeChild lvs x rest

/-- The observations of the child addressed by `lvs`. -/
def childObservations (lvs : List String) : List (List String × List Int) → List Int
  | [] => []
  | (k, obs) :: rest => if k = lvs then obs else childObservations lvs rest

/-- The call `vec.WithLabelValues(lvs...).Observe(x)`. -/
def HistogramVec.observe (vec : HistogramVec) (lvs : List String) (x : Int) : HistogramVec :=
  { vec with children := observeChild lvs x vec.children }

/-- The sample count a scrape shows for `vec{lvs}`. -/
def HistogramVec.count (vec : HistogramVec) (lvs : List String) : Nat :=
  (childObservations lvs vec.children).length

/-- The total number of observations over all label-value combinations. -/
def HistogramVec.total (vec : HistogramVec) : Nat :=
  (vec.children.map (fun c => c.2.length)).sum

/-! ## controllers/resource_controller.go: the package-level collectors -/

def reconcileTotalCounter : CounterVec :=
  { Name := "controller_reconcile_total"
    Help := "Total number of reconciliation attempts"
    labelNames := ["controller", "result"]
    children := [] }

def reconcileDurationHistogram : HistogramVec :=
  { Name := "controller_reconcile_duration_seconds"
    Help := "Time spent reconciling resources"
    labelNames := ["controller"]
    children := [] }

def reconcileErrorsCounter : CounterVec :=
  { Name := "controller_reconcile_errors_total"
    Help := "Total number of reconciliation errors"
    labelNames := ["controller", "error_type"]
    children := [] }

/-! ## The world the reconciler runs in -/

/-- A call the reconciler issued to its client. -/
inductive Call where
  | Get (key : NamespacedName)
  | StatusUpdate (obj : NewResource)
  deriving DecidableEq, Repr

/-- A value logged next to a message. -/
inductive LogValue where
  | str (s : String)
  | bool (b : Bool)
  | key (k : NamespacedName)
  deriving DecidableEq, Repr

/-- One line written through the `logr.Logger`: `err` is set for `logger.Error`. -/
structure LogEntry where
  err : Option Error
  msg : String
  keysAndValues : List (String × LogValue)
  deriving DecidableEq, Repr

/-- The wall clock: the reading of the `n`-th call of `time.Now()`, in
nanoseconds, and the number of readings taken so far. -/
structure Clock where
  readings : Nat → Int
  reads : Nat

/-- Everything `Reconcile` reads or writes besides its arguments: the state
behind the client, the clock, the three package-level collectors, the calls
issued to the client so far (oldest first) and the log written so far. -/
structure World (σ : Type) where
  store : σ
  clock : Clock
  reconcileTotalCounter : CounterVec
  reconcileDurationHistogram : HistogramVec
  reconcileErrorsCounter : CounterVec
  calls : List Call
  log : List LogEntry

/-- The world at process start: collectors as declared, nothing called or logged. -/
def initWorld {σ : Type} (store : σ) (readings : Nat → Int) : World σ :=
  { store := store
    clock := { readings := readings, reads := 0 }
    reconcileTotalCounter := reconcileTotalCounter
    reconcileDurationHistogram := reconcileDurationHistogram
    reconcileErrorsCounter := reconcileErrorsCounter
    calls := []
    log := [] }

/-- The struct `NewResourceReconciler`: the embedded `client.Client`, reduced
to the two methods `Reconcile` calls.  Both take the object behind the Go
pointer and return what they left in it, the error, and the new store state. -/
structure NewResourceReconciler (σ : Type) where
  Get : NamespacedName → NewResource → σ → NewResource × Option Error × σ
  StatusUpdate : NewResource → σ → NewResource × Option Error × σ

/-- The call `time.Now()`. -/
def timeNow {σ : Type} (w : World σ) : Int × World σ :=
  (w.clock.readings w.clock.reads, { w with clock := { w.clock with reads := w.clock.reads + 1 } })

/-- The call `r.Get(ctx, key, &resource)`. -/
def clientGet {σ : Type} (r : NewResourceReconciler σ) (key : NamespacedName)
    (resource : NewResource) (w : World σ) : NewResource × Option Error × World σ :=
  let out := r.Get key resource w.store
  (out.1, out.2.1, { w with store := out.2.2, calls := w.calls ++ [Call.Get key] })

/-- The call `r.Status().Update(ctx, &resource)`. -/
def clientStatusUpdate {σ : Type} (r : NewResourceReconciler σ)
    (resource : NewResource) (w : World σ) : NewResource × Option Error × World σ :=
  let out := r.StatusUpdate resource w.store
  (out.1, out.2.1, { w with store := out.2.2, calls := w.calls ++ [Call.StatusUpdate resource] })

/-- The call `reconcileTotalCounter.WithLabelValues(lvs...).Inc()`. -/
def incReconcileTotal {σ : Type} (lvs : List String) (w : World σ) : World σ :=
  { w with reconcileTotalCounter := w.reconcileTotalCounter.inc lvs }

/-- The call `reconcileErrorsCounter.WithLabelValues(lvs...).Inc()`. -/
def incReconcileErrors {σ : Type} (lvs : List String) (w : World σ) : World σ :=
  { w with reconcileErrorsCounter := w.reconcileErrorsCounter.inc lvs }

/-- The call `reconcileDurationHistogram.WithLabelValues(lvs...).Observe(x)`. -/
def observeReconcileDuration {σ : Type} (lvs : List String) (x : Int) (w : World σ) : World σ :=
  { w with reconcileDurationHistogram := w.reconcileDurationHistogram.observe lvs x }

/-- The call `logger.Info(msg, keysAndValues...)`. -/
def loggerInfo {σ : Type} (msg : String) (kvs : List (String × LogValue)) (w : World σ) :
    World σ :=
  { w with log := w.log ++ [{ err := none, msg := msg, keysAndValues := kvs }] }

/-- The call `logger.Error(err, msg, keysAndValues...)`. -/
def loggerError {σ : Type} (err : Error) (msg : String) (kvs : List (String × LogValue))
    (w : World σ) : World σ :=
  { w with log := w.log ++ [{ err := some err, msg := msg, keysAndValues := kvs }] }

/-! ## controllers/resource_controller.go: Reconcile -/

/-- The body of `Reconcile` between the `defer` statement and the returns:
from `var resource newv1.NewResource` on. -/
def reconcileBody {σ : Type} (r : NewResourceReconciler σ) (req : Request)
    (controllerName : String) (w : World σ) : (Result × Option Error) × World σ :=
  let resource := NewResource.zero
  let got := clientGet r req.NamespacedName resource w
  let resource := got.1
  let w := got.2.2
  match got.2.1 with
  | some err =>
    if IgnoreNotFound (some err) = none then
      -- Resource not found - normal case
      let w := incReconcileTotal [controllerName, "not_found"] w
      let w := loggerInfo "Resource not found, ignoring"
        [("name", LogValue.key req.NamespacedName)] w
      ((Result.empty, none), w)
    else
      -- Actual error
      let w := incReconcileTotal [controllerName, "error"] w
      let w := incReconcileErrors [controllerName, "get_resource"] w
      let w := loggerError err "Failed to get resource"
        [("name", LogValue.key req.NamespacedName)] w
      ((Result.empty, some err), w)
  | none =>
    let w := loggerInfo "Reconciling"
      [("name", LogValue.str resource.objectMeta.Name),
       ("namespace", LogValue.str resource.objectMeta.Namespace)] w
    -- Set the resource status to ready
    let resource := resource.setReady
    let w := loggerInfo "Attempting to update resource status"
      [("name", LogValue.str resource.objectMeta.Name),
       ("namespace", LogValue.str resource.objectMeta.Namespace),
       ("ready", LogValue.bool resource.Status.Ready)] w
    -- Update the status
    let upd := clientStatusUpdate r resource w
    let resource := upd.1
    let w := upd.2.2
    match upd.2.1 with
    | some err =>
      let w := incReconcileTotal [controllerName, "error"] w
      let w := incReconcileErrors [controllerName, "status_update"] w
      let w := loggerError err "Failed to update resource status"
        [("name", LogValue.str resource.objectMeta.Name),
         ("namespace", LogValue.str resource.objectMeta.Namespace)] w
      ((Result.empty, some err), w)
    | none =>
      let w := loggerInfo "Successfully reconciled resource"
        [("name", LogValue.str resource.objectMeta.Name),
         ("namespace", LogValue.str resource.objectMeta.Namespace),
         ("ready", LogValue.bool resource.Status.Ready)] w
      -- Success
      let w := incReconcileTotal [controllerName, "success"] w
      ((Result.empty, none), w)

/-- The method `NewResourceReconciler.Reconcile`: start the metrics recording,
run the body, and on the way out run the deferred duration observation. -/
def Reconcile {σ : Type} (r : NewResourceReconciler σ) (req : Request) (w : World σ) :
    (Result × Option Error) × World σ :=
  -- Start metrics recording
  let now := timeNow w
  let start := now.1
  let w := now.2
  let controllerName := "NewResource"
  let w := incReconcileTotal [controllerName, "started"] w
  let ret := reconcileBody r req controllerName w
  -- the deferred function
  let since := timeNow ret.2
  let duration := since.1 - start
  let w := observeReconcileDuration [controllerName] duration since.2
  (ret.1, w)

/-- A sequence of completed `Reconcile` invocations, one after the other. -/
def reconcileAll {σ : Type} (r : NewResourceReconciler σ) : List Request → World σ → World σ
  | [], w => w
  | req :: reqs, w => reconcileAll r reqs (Reconcile r req w).2

/-- The world `Reconcile` leaves behind, given what its body did to the
client state, the two result counters' vectors, the calls and the log. -/
def afterReconcile {σ : Type} (w : World σ) (store : σ) (total errors : CounterVec)
    (calls : List Call) (log : List LogEntry) : World σ :=
  { store := store
    clock := { readings := w.clock.readings, reads := w.clock.reads + 2 }
    reconcileTotalCounter := total
    reconcileDurationHistogram :=
      w.reconcileDurationHistogram.observe ["NewResource"]
        (w.clock.readings (w.clock.reads + 1) - w.clock.readings w.clock.reads)
    reconcileErrorsCounter := errors
    calls := calls
    log := log }

/-! ## controllers/resource_controller.go: SetupWithManager -/

/-- The process-global `metrics.Registry`: the fully-qualified names of the
collectors registered so far.  None of the three collectors has constant
labels, so a collector's identity in the registry is its name. -/
abbrev Registry := List String

/-- The value `prometheus.AlreadyRegisteredError`, with its message. -/
def AlreadyRegisteredError : Error :=
  { Reason := StatusReasonUnknown
    Code := 0
    Message := "duplicate metrics collector registration attempted" }

/-- The method `Registry.Register` on a collector of the given name: a
collector that was registered before is refused with `AlreadyRegisteredError`,
and the registry is left as it was. -/
def Register (reg : Registry) (name : String) : Option Error × Registry :=
  if name ∈ reg then (some AlreadyRegisteredError, reg) else (none, reg ++ [name])

/-- The `ctrl.Manager` as far as `SetupWithManager` uses it: what
`ctrl.NewControllerManagedBy(mgr).For(&newv1.NewResource{}).Complete(r)`
returns for it. -/
structure Manager where
  Complete : Option Error

/-- The method `NewResourceReconciler.SetupWithManager`, over the registry. -/
def SetupWithManager (mgr : Manager) (reg : Registry) : Option Error × Registry :=
  -- Register metrics
  let r1 := Register reg reconcileTotalCounter.Name
  match r1.1 with
  | some err => (some err, r1.2)
  | none =>
    let r2 := Register r1.2 reconcileDurationHistogram.Name
    match r2.1 with
    | some err => (some err, r2.2)
    | none =>
      let r3 := Register r2.2 reconcileErrorsCounter.Name
      match r3.1 with
      | some err => (some err, r3.2)
      | none => (mgr.Complete, r3.2)

/-! ## test/main_test.go: the mock client -/

/-- The struct `mockClient`. -/
structure mockClient where
  resource : Option NewResource
  err : Option Error
  statusErr : Option Error

/-- The struct `schema.GroupResource`. -/
structure GroupResource where
  Group : String
  Resource : String

/-- The method `GroupResource.String`. -/
def GroupResource.String (gr : GroupResource) : String :=
  if gr.Group = "" then gr.Resource else gr.Resource ++ "." ++ gr.Group

/-- The digit of `n` below 16 in lower-case hexadecimal. -/
def hexDigit (n : Nat) : Char :=
  if n < 10 then Char.ofNat (48 + n) else Char.ofNat (87 + n)

/-- What `strconv.Quote` writes for one character: the double quote and the
backslash behind a backslash, the control characters by their Go escapes, the
other characters as they are.  Characters outside ASCII are taken to be
printable. -/
def quoteRune (c : Char) : String :=
  let backslash := String.singleton (Char.ofNat 92)
  if c.toNat = 34 ∨ c.toNat = 92 then backslash ++ String.singleton c
  else if c.toNat = 7 then backslash ++ "a"
  else if c.toNat = 8 then backslash ++ "b"
  else if c.toNat = 12 then backslash ++ "f"
  else if c.toNat = 10 then backslash ++ "n"
  else if c.toNat = 13 then backslash ++ "r"
  else if c.toNat = 9 then backslash ++ "t"
  else if c.toNat = 11 then backslash ++ "v"
  else if c.toNat < 32 ∨ c.toNat = 127 then
    backslash ++ "x" ++ String.singleton (hexDigit (c.toNat / 16))
      ++ String.singleton (hexDigit (c.toNat % 16))
  else String.singleton c

/-- The function `strconv.Quote`, the `%q` verb of `fmt.Sprintf` on a string. -/
def Quote (s : String) : String :=
  String.singleton (Char.ofNat 34) ++ String.join (s.toList.map quoteRune)
    ++ String.singleton (Char.ofNat 34)

/-- The function `apierrors.NewNotFound`: a status error of reason NotFound
and code `http.StatusNotFound`, its message
`fmt.Sprintf("%s %q not found", qualifiedResource.String(), name)`. -/
def NewNotFound (qualifiedResource : GroupResource) (name : String) : Error :=
  { Reason := StatusReasonNotFound
    Code := 404
    Message := qualifiedResource.String ++ " " ++ Quote name ++ " not found" }

/-- The method `mockClient.Get`. -/
def mockClient.Get (m : mockClient) (key : NamespacedName) (obj : NewResource) :
    NewResource × Option Error :=
  match m.err with
  | some e => (obj, some e)
  | none =>
    match m.resource with
    | some resource => (resource, none)
    | none =>
      (obj, some (NewNotFound { Group := "example.com", Resource := "newresources" } key.Name))

/-- The method `mockStatusWriter.Update`, on the writer `mockClient.Status` builds. -/
def mockClient.StatusUpdate (m : mockClient) (obj : NewResource) : NewResource × Option Error :=
  match m.statusErr with
  | some e => (obj, some e)
  | none => (obj, none)

/-- A reconciler over the mock client, `&controllers.NewResourceReconciler{Client: m}`;
the mock is the store state, and no call changes it. -/
def mockReconciler : NewResourceReconciler mockClient :=
  { Get := fun key obj m => ((m.Get key obj).1, (m.Get key obj).2, m)
    StatusUpdate := fun obj m => ((m.StatusUpdate obj).1, (m.StatusUpdate obj).2, m) }

/-- The resource of `test_status_update_failure`. -/
def testResource : NewResource :=
  { typeMeta := { Kind := "", APIVersion := "" }
    objectMeta := { Name := "test-status-failure", Namespace := "default",
                    ResourceVersion := "", Generation := 0 }
    Spec := { Foo := "test-value", ReconcileTrigger := false }
    Status := { Ready := false } }

/-- The request of `test_status_update_failure`. -/
def testRequest : Request :=
  { NamespacedName := { Namespace := "default", Name := "test-status-failure" } }

/-- The error `errors.New("mock get error")` of `test_resource_retrieval_error`. -/
def mockGetError : Error :=
  { Reason := StatusReasonUnknown, Code := 0, Message := "mock get error" }

/-- The error `errors.New("mock status update error")` of `test_status_update_failure`. -/
def mockStatusUpdateError : Error :=
  { Reason := StatusReasonUnknown, Code := 0, Message := "mock status update error" }

/-- A conflict as the API server reports it for a stale resource version. -/
def conflictError : Error :=
  { Reason := StatusReasonConflict
    Code := 409
    Message := "the object has been modified; please apply your changes to the latest version and try again" }

/-- A clock that advances one millisecond per reading. -/
def testReadings : Nat → Int := fun n => 1000000 * (n : Int)

/-- The world at process start around a given mock client. -/
def testWorld (m : mockClient) : World mockClient := initWorld m testReadings

/-- The mock of the successful scenarios: it holds the test resource and fails nowhere. -/
def okMock : mockClient :=
  { resource := some testResource, err := none, statusErr := none }

/-- The mock of `test_resource_not_found`: it holds no resource and no Get error. -/
def emptyMock : mockClient :=
  { resource := none, err := none, statusErr := none }

/-- The mock of `test_resource_retrieval_error`. -/
def getErrorMock : mockClient :=
  { resource := none, err := some mockGetError, statusErr := none }

/-- The mock of `test_status_update_failure`. -/
def statusErrorMock : mockClient :=
  { resource := some testResource, err := none, statusErr := some mockStatusUpdateError }

/-- A mock whose status update is rejected with a conflict. -/
def conflictMock : mockClient :=
  { resource := some testResource, err := none, statusErr := some conflictError }

/-- A mock holding the test resource as a successful reconcile left it. -/
def readyMock : mockClient :=
  { resource := some testResource.setReady, err := none, statusErr := none }

/-- The value of `controller_reconcile_total{controller="NewResource", result}`. -/
def World.total {σ : Type} (w : World σ) (result : String) : Nat :=
  w.reconcileTotalCounter.value ["NewResource", result]

/-- The value of `controller_reconcile_errors_total{controller="NewResource", error_type}`. -/
def World.errors {σ : Type} (w : World σ) (errorType : String) : Nat :=
  w.reconcileErrorsCounter.value ["NewResource", errorType]

/-- The number of samples of `controller_reconcile_duration_seconds{controller="NewResource"}`. -/
def World.durations {σ : Type} (w : World σ) : Nat :=
  w.reconcileDurationHistogram.count ["NewResource"]

/-- The accounting identities between the collectors. -/
def MetricsInv {σ : Type} (w : World σ) : Prop :=
  w.total "started" = w.total "success" + w.total "not_found" + w.total "error"
  ∧ w.total "error" = w.reconcileErrorsCounter.sum
  ∧ w.reconcileErrorsCounter.sum
      = w.errors "get_resource" + w.errors "status_update" + w.errors "strategy"

/-! ## The work queue and the dispatcher around Reconcile -/

/-- Modelled from the spec: the Work Queue of spec section 4.1, which the
repository takes from its controller framework through
`ctrl.NewControllerManagedBy(mgr).For(...).Complete(r)` and of which src/ holds
nothing.  Its internal sets: the identities queued and not yet dequeued, in
order; those being processed; those marked dirty while being processed.
Shutdown and the backoff counters behind Forget are left out. -/
structure WorkQueue where
  queued : List NamespacedName
  processing : List NamespacedName
  dirty : List NamespacedName
  deriving DecidableEq, Repr

/-- Modelled from the spec: `Add(identity)` enqueues the identity; it is a
no-op if the identity is already present and not yet dequeued; if the identity
is currently being processed, it is marked dirty instead. -/
def WorkQueue.Add (q : WorkQueue) (identity : NamespacedName) : WorkQueue :=
  if identity ∈ q.queued then q
  else if identity ∈ q.processing then
    if identity ∈ q.dirty then q else { q with dirty := q.dirty ++ [identity] }
  else { q with queued := q.queued ++ [identity] }

/-- Modelled from the spec: `Get()` hands out the first queued identity and
marks it as processing; on an empty queue it blocks, which is `none` here. -/
def WorkQueue.Get (q : WorkQueue) : Option (NamespacedName × WorkQueue) :=
  match q.queued with
  | [] => none
  | identity :: rest =>
    some (identity, { q with queued := rest, processing := identity :: q.processing })

/-- Modelled from the spec: `Done(identity)` marks the identity no longer
processing; if it was marked dirty while processing, it is re-added at once. -/
def WorkQueue.Done (q : WorkQueue) (identity : NamespacedName) : WorkQueue :=
  if identity ∈ q.dirty then
    { queued := q.queued ++ [identity]
      processing := q.processing.erase identity
      dirty := q.dirty.erase identity }
  else { q with processing := q.processing.erase identity }

/-- Modelled from the spec: what the history of the Dispatcher records, the
start and the completion of a Reconcile Engine invocation for an identity. -/
inductive RunEvent where
  | started (identity : NamespacedName)
  | completed (identity : NamespacedName)
  deriving DecidableEq, Repr

/-- Modelled from the spec: the Dispatcher / Worker Pool of spec section 4.3
around the Work Queue: for each of its workers the identity it is reconciling
(`none` for a worker waiting in Get), the identities whose delayed re-add from
AddAfter has not elapsed yet, and the history of invocations so far. -/
structure Dispatcher where
  queue : WorkQueue
  workers : List (Option NamespacedName)
  delayed : List NamespacedName
  history : List RunEvent
  deriving DecidableEq, Repr

/-- Modelled from the spec: a dispatcher of `n` workers at process start. -/
def Dispatcher.start (n : Nat) : Dispatcher :=
  { queue := { queued := [], processing := [], dirty := [] }
    workers := List.replicate n none
    delayed := []
    history := [] }

/-- Modelled from the spec: the events that move the dispatcher.  `add` is a
change notification calling `Add`; `get i` is worker `i` returning from `Get`
and entering the Reconcile Engine; `done i ok` is the Reconcile Engine
returning to worker `i`, with `ok` telling whether the outcome was a success;
`elapse` is the delay of the oldest pending AddAfter running out. -/
inductive Action where
  | add (identity : NamespacedName)
  | get (i : Nat)
  | done (i : Nat) (ok : Bool)
  | elapse
  deriving DecidableEq, Repr

/-- Modelled from the spec: one step of the system of spec sections 4.1 and
4.3.  A worker loops Get, Reconcile Engine, then Forget and Done on success
or AddAfter and Done on an error outcome.  An action that cannot happen in the
state (a busy worker in Get, an idle worker finishing, an empty queue) leaves
the state as it is. -/
def Dispatcher.step (d : Dispatcher) : Action → Dispatcher
  | Action.add identity => { d with queue := d.queue.Add identity }
  | Action.get i =>
    match d.workers[i]? with
    | some none =>
      match d.queue.Get with
      | some (identity, q) =>
        { d with queue := q
                 workers := d.workers.set i (some identity)
                 history := d.history ++ [RunEvent.started identity] }
      | none => d
    | _ => d
  | Action.done i ok =>
    match d.workers[i]? with
    | some (some identity) =>
      { queue := d.queue.Done identity
        workers := d.workers.set i none
        delayed := if ok then d.delayed else d.delayed ++ [identity]
        history := d.history ++ [RunEvent.completed identity] }
    | _ => d
  | Action.elapse =>
    match d.delayed with
    | [] => d
    | identity :: rest => { d with queue := d.queue.Add identity, delayed := rest }

/-- The number of invocations started for an identity so far. -/
def Dispatcher.started (d : Dispatcher) (identity : NamespacedName) : Nat :=
  d.history.count (RunEvent.started identity)

/-- The number of invocations completed for an identity so far. -/
def Dispatcher.completed (d : Dispatcher) (identity : NamespacedName) : Nat :=
  d.history.count (RunEvent.completed identity)

@[simp] theorem NewResource.setReady_typeMeta (o : NewResource) :
    o.setReady.typeMeta = o.typeMeta := rfl

@[simp] theorem NewResource.setReady_objectMeta (o : NewResource) :
    o.setReady.objectMeta = o.objectMeta := rfl

@[simp] theorem NewResource.setReady_Spec (o : NewResource) :
    o.setReady.Spec = o.Spec := rfl

@[simp] theorem NewResource.setReady_Ready (o : NewResource) :
    o.setReady.Status.Ready = true := rfl

theorem NewResource.setReady_eq_self (o : NewResource) (h : o.Status.Ready = true) :
    o.setReady = o := by
  obtain ⟨tm, om, sp, ⟨rd⟩⟩ := o
  simp only at h
  subst h
  rfl

/-! ## Facts about the collectors -/

theorem childValue_incChild_self (lvs : List String) (l : List (List String × Nat)) :
    childValue lvs (incChild lvs l) = childValue lvs l + 1 := by
  induction l with
  | nil => simp [incChild, childValue]
  | cons c rest ih =>
    obtain ⟨k, v⟩ := c
    by_cases h : k = lvs
    · simp [incChild, childValue, h]
    · simp [incChild, childValue, h, ih]

theorem childValue_incChild_ne (lvs k : List String) (l : List (List String × Nat))
    (hk : k ≠ lvs) : childValue k (incChild lvs l) = childValue k l := by
  induction l with
  | nil =>
    have hk2 : ¬ lvs = k := fun h => hk h.symm
    simp [incChild, childValue, hk2]
  | cons c rest ih =>
    obtain ⟨k2, v⟩ := c
    by_cases h : k2 = lvs
    · subst h
      have hk2 : ¬ k2 = k := fun h => hk h.symm
      simp [incChild, childValue, hk2]
    · by_cases h2 : k2 = k
      · subst h2
        simp [incChild, childValue, h]
      · simp [incChild, childValue, h, h2, ih]

theorem sum_incChild (lvs : List String) (l : List (List String × Nat)) :
    ((incChild lvs l).map Prod.snd).sum = (l.map Prod.snd).sum + 1 := by
  induction l with
  | nil => simp [incChild]
  | cons c rest ih =>
    obtain ⟨k, v⟩ := c
    by_cases h : k = lvs
    · simp [incChild, h]; omega
    · simp [incChild, h, ih]; omega

theorem CounterVec.value_inc_self (vec : CounterVec) (lvs : List String) :
    (vec.inc lvs).value lvs = vec.value lvs + 1 := by
  simp [CounterVec.inc, CounterVec.value, childValue_incChild_self]

theorem CounterVec.value_inc_ne (vec : CounterVec) (lvs k : List String) (hk : k ≠ lvs) :
    (vec.inc lvs).value k = vec.value k := by
  simp [CounterVec.inc, CounterVec.value, childValue_incChild_ne lvs k _ hk]

theorem CounterVec.sum_inc (vec : CounterVec) (lvs : List String) :
    (vec.inc lvs).sum = vec.sum + 1 := by
  simp [CounterVec.inc, CounterVec.sum, sum_incChild]

theorem childObservations_observeChild_self (lvs : List String) (x : Int)
    (l : List (List String × List Int)) :
    childObservations lvs (observeChild lvs x l) = x :: childObservations lvs l := by
  induction l with
  | nil => simp [observeChild, childObservations]
  | cons c rest ih =>
    obtain ⟨k, obs⟩ := c
    by_cases h : k = lvs
    · simp [observeChild, childObservations, h]
    · simp [observeChild, childObservations, h, ih]

theorem total_observeChild (lvs : List String) (x : Int) (l : List (List String × List Int)) :
    ((observeChild lvs x l).map (fun c => c.2.length)).sum
      = (l.map (fun c => c.2.length)).sum + 1 := by
  induction l with
  | nil => simp [observeChild]
  | cons c rest ih =>
    obtain ⟨k, obs⟩ := c
    by_cases h : k = lvs
    · simp [observeChild, h]; omega
    · simp [observeChild, h, ih]; omega

theorem HistogramVec.count_observe_self (vec : HistogramVec) (lvs : List String) (x : Int) :
    (vec.observe lvs x).count lvs = vec.count lvs + 1 := by
  simp [HistogramVec.observe, HistogramVec.count, childObservations_observeChild_self]

theorem HistogramVec.total_observe (vec : HistogramVec) (lvs : List String) (x : Int) :
    (vec.observe lvs x).total = vec.total + 1 := by
  simp [HistogramVec.observe, HistogramVec.total, total_observeChild]

/-! ## The four paths through Reconcile -/

theorem Reconcile_notFound {σ : Type} (r : NewResourceReconciler σ) (req : Request)
    (w : World σ) (obj : NewResource) (e : Error) (s : σ)
    (hGet : r.Get req.NamespacedName NewResource.zero w.store = (obj, some e, s))
    (hNF : IsNotFound e = true) :
    Reconcile r req w =
      ((Result.empty, none),
        afterReconcile w s
          ((w.reconcileTotalCounter.inc ["NewResource", "started"]).inc
            ["NewResource", "not_found"])
          w.reconcileErrorsCounter
          (w.calls ++ [Call.Get req.NamespacedName])
          (w.log ++ [{ err := none, msg := "Resource not found, ignoring",
                       keysAndValues := [("name", LogValue.key req.NamespacedName)] }])) := by
  simp [Reconcile, reconcileBody, clientGet, timeNow, incReconcileTotal, loggerInfo,
    observeReconcileDuration, afterReconcile, IgnoreNotFound, hGet, hNF]

theorem Reconcile_getError {σ : Type} (r : NewResourceReconciler σ) (req : Request)
    (w : World σ) (obj : NewResource) (e : Error) (s : σ)
    (hGet : r.Get req.NamespacedName NewResource.zero w.store = (obj, some e, s))
    (hNF : IsNotFound e = false) :
    Reconcile r req w =
      ((Result.empty, some e),
        afterReconcile w s
          ((w.reconcileTotalCounter.inc ["NewResource", "started"]).inc
            ["NewResource", "error"])
          (w.reconcileErrorsCounter.inc ["NewResource", "get_resource"])
          (w.calls ++ [Call.Get req.NamespacedName])
          (w.log ++ [{ err := some e, msg := "Failed to get resource",
                       keysAndValues := [("name", LogValue.key req.NamespacedName)] }])) := by
  simp [Reconcile, reconcileBody, clientGet, timeNow, incReconcileTotal, incReconcileErrors,
    loggerError, observeReconcileDuration, afterReconcile, IgnoreNotFound, hGet, hNF]

theorem Reconcile_updateError {σ : Type} (r : NewResourceReconciler σ) (req : Request)
    (w : World σ) (obj obj2 : NewResource) (e : Error) (s s2 : σ)
    (hGet : r.Get req.NamespacedName NewResource.zero w.store = (obj, none, s))
    (hUpd : r.StatusUpdate obj.setReady s = (obj2, some e, s2)) :
    Reconcile r req w =
      ((Result.empty, some e),
        afterReconcile w s2
          ((w.reconcileTotalCounter.inc ["NewResource", "started"]).inc
            ["NewResource", "error"])
          (w.reconcileErrorsCounter.inc ["NewResource", "status_update"])
          (w.calls ++ [Call.Get req.NamespacedName, Call.StatusUpdate obj.setReady])
          (w.log ++
            [{ err := none, msg := "Reconciling",
               keysAndValues := [("name", LogValue.str obj.objectMeta.Name),
                 ("namespace", LogValue.str obj.objectMeta.Namespace)] },
             { err := none, msg := "Attempting to update resource status",
               keysAndValues := [("name", LogValue.str obj.objectMeta.Name),
                 ("namespace", LogValue.str obj.objectMeta.Namespace),
                 ("ready", LogValue.bool true)] },
             { err := some e, msg := "Failed to update resource status",
               keysAndValues := [("name", LogValue.str obj2.objectMeta.Name),
                 ("namespace", LogValue.str obj2.objectMeta.Namespace)] }])) := by
  simp [Reconcile, reconcileBody, clientGet, clientStatusUpdate, timeNow, incReconcileTotal,
    incReconcileErrors, loggerInfo, loggerError, observeReconcileDuration, afterReconcile,
    hGet, hUpd]

theorem Reconcile_success {σ : Type} (r : NewResourceReconciler σ) (req : Request)
    (w : World σ) (obj obj2 : NewResource) (s s2 : σ)
    (hGet : r.Get req.NamespacedName NewResource.zero w.store = (obj, none, s))
    (hUpd : r.StatusUpdate obj.setReady s = (obj2, none, s2)) :
    Reconcile r req w =
      ((Result.empty, none),
        afterReconcile w s2
          ((w.reconcileTotalCounter.inc ["NewResource", "started"]).inc
            ["NewResource", "success"])
          w.reconcileErrorsCounter
          (w.calls ++ [Call.Get req.NamespacedName, Call.StatusUpdate obj.setReady])
          (w.log ++
            [{ err := none, msg := "Reconciling",
               keysAndValues := [("name", LogValue.str obj.objectMeta.Name),
                 ("namespace", LogValue.str obj.objectMeta.Namespace)] },
             { err := none, msg := "Attempting to update resource status",
               keysAndValues := [("name", LogValue.str obj.objectMeta.Name),
                 ("namespace", LogValue.str obj.objectMeta.Namespace),
                 ("ready", LogValue.bool true)] },
             { err := none, msg := "Successfully reconciled resource",
               keysAndValues := [("name", LogValue.str obj2.objectMeta.Name),
                 ("namespace", LogValue.str obj2.objectMeta.Namespace),
                 ("ready", LogValue.bool obj2.Status.Ready)] }])) := by
  simp [Reconcile, reconcileBody, clientGet, clientStatusUpdate, timeNow, incReconcileTotal,
    loggerInfo, observeReconcileDuration, afterReconcile, hGet, hUpd]

/-- Every invocation takes exactly one of the four paths. -/
theorem Reconcile_paths {σ : Type} (r : NewResourceReconciler σ) (req : Request)
    (w : World σ) :
    (∃ obj e s, r.Get req.NamespacedName NewResource.zero w.store = (obj, some e, s)
        ∧ IsNotFound e = true)
    ∨ (∃ obj e s, r.Get req.NamespacedName NewResource.zero w.store = (obj, some e, s)
        ∧ IsNotFound e = false)
    ∨ (∃ obj obj2 e s s2, r.Get req.NamespacedName NewResource.zero w.store = (obj, none, s)
        ∧ r.StatusUpdate obj.setReady s = (obj2, some e, s2))
    ∨ (∃ obj obj2 s s2, r.Get req.NamespacedName NewResource.zero w.store = (obj, none, s)
        ∧ r.StatusUpdate obj.setReady s = (obj2, none, s2)) := by
  rcases hGet : r.Get req.NamespacedName NewResource.zero w.store with ⟨obj, err, s⟩
  cases err with
  | some e =>
    cases hNF : IsNotFound e with
    | true => exact Or.inl ⟨obj, e, s, rfl, hNF⟩
    | false => exact Or.inr (Or.inl ⟨obj, e, s, rfl, hNF⟩)
  | none =>
    rcases hUpd : r.StatusUpdate obj.setReady s with ⟨obj2, err2, s2⟩
    cases err2 with
    | some e => exact Or.inr (Or.inr (Or.inl ⟨obj, obj2, e, s, s2, rfl, hUpd⟩))
    | none => exact Or.inr (Or.inr (Or.inr ⟨obj, obj2, s, s2, rfl, hUpd⟩))

/-! ## The contract of Reconcile -/

/-- C1: when Get returns an object without error and the status update returns
without error, Reconcile returns the empty result and a nil error, the object
handed to the status update is the fetched one with Status.Ready true, the
success result of controller_reconcile_total goes up by exactly 1, its
not_found and error results stay as they were, and
controller_reconcile_errors_total is left unchanged as a whole. -/
theorem reconcile_success_contract {σ : Type} (r : NewResourceReconciler σ) (req : Request)
    (w : World σ) (obj obj2 : NewResource) (s s2 : σ)
    (hGet : r.Get req.NamespacedName NewResource.zero w.store = (obj, none, s))
    (hUpd : r.StatusUpdate obj.setReady s = (obj2, none, s2)) :
    (Reconcile r req w).1 = (Result.empty, none)
    ∧ (Reconcile r req w).2.calls
        = w.calls ++ [Call.Get req.NamespacedName, Call.StatusUpdate obj.setReady]
    ∧ obj.setReady.Status.Ready = true
    ∧ (Reconcile r req w).2.reconcileTotalCounter.value ["NewResource", "success"]
        = w.reconcileTotalCounter.value ["NewResource", "success"] + 1
    ∧ (Reconcile r req w).2.reconcileTotalCounter.value ["NewResource", "not_found"]
        = w.reconcileTotalCounter.value ["NewResource", "not_found"]
    ∧ (Reconcile r req w).2.reconcileTotalCounter.value ["NewResource", "error"]
        = w.reconcileTotalCounter.value ["NewResource", "error"]
    ∧ (Reconcile r req w).2.reconcileErrorsCounter = w.reconcileErrorsCounter := by
  rw [Reconcile_success r req w obj obj2 s s2 hGet hUpd]
  simp [afterReconcile, CounterVec.value_inc_self, CounterVec.value_inc_ne]

/-- C2: when Get fails with a not-found error, Reconcile returns the empty
result (Requeue false, RequeueAfter zero) and a nil error, the not_found result
of controller_reconcile_total goes up by exactly 1, its error and success
results stay as they were, and controller_reconcile_errors_total is left
unchanged as a whole. -/
theorem reconcile_not_found_contract {σ : Type} (r : NewResourceReconciler σ)
    (req : Request) (w : World σ) (obj : NewResource) (e : Error) (s : σ)
    (hGet : r.Get req.NamespacedName NewResource.zero w.store = (obj, some e, s))
    (hNF : IsNotFound e = true) :
    (Reconcile r req w).1 = (Result.empty, none)
    ∧ (Reconcile r req w).1.1.Requeue = false
    ∧ (Reconcile r req w).1.1.RequeueAfter = 0
    ∧ (Reconcile r req w).2.reconcileTotalCounter.value ["NewResource", "not_found"]
        = w.reconcileTotalCounter.value ["NewResource", "not_found"] + 1
    ∧ (Reconcile r req w).2.reconcileTotalCounter.value ["NewResource", "error"]
        = w.reconcileTotalCounter.value ["NewResource", "error"]
    ∧ (Reconcile r req w).2.reconcileTotalCounter.value ["NewResource", "success"]
        = w.reconcileTotalCounter.value ["NewResource", "success"]
    ∧ (Reconcile r req w).2.reconcileErrorsCounter = w.reconcileErrorsCounter := by
  rw [Reconcile_notFound r req w obj e s hGet hNF]
  simp [afterReconcile, Result.empty, CounterVec.value_inc_self, CounterVec.value_inc_ne]

/-- C3: when Get fails with an error e that is not a not-found error, Reconcile
returns the empty result together with exactly e, the error result of
controller_reconcile_total and the get_resource type of
controller_reconcile_errors_total go up by exactly 1 each, and the success and
not_found results and the status_update type stay as they were. -/
theorem reconcile_get_error_contract {σ : Type} (r : NewResourceReconciler σ)
    (req : Request) (w : World σ) (obj : NewResource) (e : Error) (s : σ)
    (hGet : r.Get req.NamespacedName NewResource.zero w.store = (obj, some e, s))
    (hNF : IsNotFound e = false) :
    (Reconcile r req w).1 = (Result.empty, some e)
    ∧ (Reconcile r req w).2.reconcileTotalCounter.value ["NewResource", "error"]
        = w.reconcileTotalCounter.value ["NewResource", "error"] + 1
    ∧ (Reconcile r req w).2.reconcileErrorsCounter.value ["NewResource", "get_resource"]
        = w.reconcileErrorsCounter.value ["NewResource", "get_resource"] + 1
    ∧ (Reconcile r req w).2.reconcileTotalCounter.value ["NewResource", "success"]
        = w.reconcileTotalCounter.value ["NewResource", "success"]
    ∧ (Reconcile r req w).2.reconcileTotalCounter.value ["NewResource", "not_found"]
        = w.reconcileTotalCounter.value ["NewResource", "not_found"]
    ∧ (Reconcile r req w).2.reconcileErrorsCounter.value ["NewResource", "status_update"]
        = w.reconcileErrorsCounter.value ["NewResource", "status_update"] := by
  rw [Reconcile_getError r req w obj e s hGet hNF]
  simp [afterReconcile, CounterVec.value_inc_self, CounterVec.value_inc_ne]

/-- C4: when Get succeeds and the status update fails with an error e,
Reconcile returns the empty result together with exactly e, the error result of
controller_reconcile_total and the status_update type of
controller_reconcile_errors_total go up by exactly 1 each, and neither the
success result nor the get_resource type is incremented. -/
theorem reconcile_status_update_error_contract {σ : Type} (r : NewResourceReconciler σ)
    (req : Request) (w : World σ) (obj obj2 : NewResource) (e : Error) (s s2 : σ)
    (hGet : r.Get req.NamespacedName NewResource.zero w.store = (obj, none, s))
    (hUpd : r.StatusUpdate obj.setReady s = (obj2, some e, s2)) :
    (Reconcile r req w).1 = (Result.empty, some e)
    ∧ (Reconcile r req w).2.reconcileTotalCounter.value ["NewResource", "error"]
        = w.reconcileTotalCounter.value ["NewResource", "error"] + 1
    ∧ (Reconcile r req w).2.reconcileErrorsCounter.value ["NewResource", "status_update"]
        = w.reconcileErrorsCounter.value ["NewResource", "status_update"] + 1
    ∧ (Reconcile r req w).2.reconcileTotalCounter.value ["NewResource", "success"]
        = w.reconcileTotalCounter.value ["NewResource", "success"]
    ∧ (Reconcile r req w).2.reconcileErrorsCounter.value ["NewResource", "get_resource"]
        = w.reconcileErrorsCounter.value ["NewResource", "get_resource"] := by
  rw [Reconcile_updateError r req w obj obj2 e s s2 hGet hUpd]
  simp [afterReconcile, CounterVec.value_inc_self, CounterVec.value_inc_ne]

/-- The witness of C1: the mock client holding the test resource. -/
theorem reconcile_success_contract_witness :
    mockReconciler.Get testRequest.NamespacedName NewResource.zero okMock
        = (testResource, none, okMock)
    ∧ mockReconciler.StatusUpdate testResource.setReady okMock
        = (testResource.setReady, none, okMock)
    ∧ (Reconcile mockReconciler testRequest (testWorld okMock)).1 = (Result.empty, none) :=
  ⟨rfl, rfl,
    (reconcile_success_contract mockReconciler testRequest (testWorld okMock)
      testResource testResource.setReady okMock okMock rfl rfl).1⟩

/-- The witness of C2: the mock client holding nothing answers not-found. -/
theorem reconcile_not_found_contract_witness :
    IsNotFound (NewNotFound { Group := "example.com", Resource := "newresources" }
        testRequest.NamespacedName.Name) = true
    ∧ (Reconcile mockReconciler testRequest (testWorld emptyMock)).1 = (Result.empty, none) :=
  ⟨rfl,
    (reconcile_not_found_contract mockReconciler testRequest (testWorld emptyMock)
      NewResource.zero
      (NewNotFound { Group := "example.com", Resource := "newresources" }
        testRequest.NamespacedName.Name)
      emptyMock rfl rfl).1⟩

/-- The witness of C3: the mock client failing Get with "mock get error". -/
theorem reconcile_get_error_contract_witness :
    IsNotFound mockGetError = false
    ∧ (Reconcile mockReconciler testRequest (testWorld getErrorMock)).1
        = (Result.empty, some mockGetError) :=
  ⟨rfl,
    (reconcile_get_error_contract mockReconciler testRequest (testWorld getErrorMock)
      NewResource.zero mockGetError getErrorMock rfl rfl).1⟩

/-- The witness of C4: the mock client failing the status update. -/
theorem reconcile_status_update_error_contract_witness :
    mockReconciler.StatusUpdate testResource.setReady statusErrorMock
        = (testResource.setReady, some mockStatusUpdateError, statusErrorMock)
    ∧ (Reconcile mockReconciler testRequest (testWorld statusErrorMock)).1
        = (Result.empty, some mockStatusUpdateError) :=
  ⟨rfl,
    (reconcile_status_update_error_contract mockReconciler testRequest
      (testWorld statusErrorMock) testResource testResource.setReady mockStatusUpdateError
      statusErrorMock statusErrorMock rfl rfl).1⟩

/-! ## Idempotence and retry -/

/-- C5, as stated, fails: the mock client returns an object whose Status.Ready
is already true, and Reconcile still issues a status update for it. -/
theorem reconcile_ready_object_counterexample :
    (mockReconciler.Get testRequest.NamespacedName NewResource.zero readyMock).1.Status.Ready
        = true
    ∧ ¬ (∀ o : NewResource,
          Call.StatusUpdate o ∉ (Reconcile mockReconciler testRequest (testWorld readyMock)).2.calls) := by
  refine ⟨rfl, ?_⟩
  intro h
  apply h testResource.setReady.setReady
  rw [Reconcile_success mockReconciler testRequest (testWorld readyMock)
    testResource.setReady testResource.setReady.setReady readyMock readyMock rfl rfl]
  simp [afterReconcile]

/-- C5, amended: when the fetched object already has Status.Ready true,
Reconcile still issues exactly one status update, after the Get; the object it
carries equals the object fetched, so it asks for no change of the stored
status; and Reconcile returns the empty result together with whatever error
that update returned, which is Success when the update is accepted. -/
theorem reconcile_ready_object_rewrites_same_status {σ : Type} (r : NewResourceReconciler σ)
    (req : Request) (w : World σ) (obj obj2 : NewResource) (err : Option Error) (s s2 : σ)
    (hGet : r.Get req.NamespacedName NewResource.zero w.store = (obj, none, s))
    (hReady : obj.Status.Ready = true)
    (hUpd : r.StatusUpdate obj s = (obj2, err, s2)) :
    (Reconcile r req w).2.calls
        = w.calls ++ [Call.Get req.NamespacedName, Call.StatusUpdate obj]
    ∧ (Reconcile r req w).1 = (Result.empty, err) := by
  have hSame : obj.setReady = obj := NewResource.setReady_eq_self obj hReady
  rw [← hSame] at hUpd
  cases err with
  | none =>
    rw [Reconcile_success r req w obj obj2 s s2 hGet hUpd]
    simp [afterReconcile, hSame]
  | some e =>
    rw [Reconcile_updateError r req w obj obj2 e s s2 hGet hUpd]
    simp [afterReconcile, hSame]

/-- The witness of amended C5: the second reconcile of the unchanged test resource. -/
theorem reconcile_ready_object_rewrites_same_status_witness :
    testResource.setReady.Status.Ready = true
    ∧ (Reconcile mockReconciler testRequest (testWorld readyMock)).2.calls
        = [Call.Get testRequest.NamespacedName, Call.StatusUpdate testResource.setReady]
    ∧ (Reconcile mockReconciler testRequest (testWorld readyMock)).1 = (Result.empty, none) :=
  ⟨rfl,
    reconcile_ready_object_rewrites_same_status mockReconciler testRequest (testWorld readyMock)
      testResource.setReady testResource.setReady none readyMock readyMock rfl rfl rfl⟩

/-- C6: when the status update of a first Reconcile is rejected with a
Conflict error e, that Reconcile returns e, a non-nil error, so the request is
retried.  A later Reconcile of the same request, run in the world the first one
left with the store moved on to any state in which Get returns the fresh object
and the status update is accepted, returns success and hands the fresh object
with Status.Ready true to the status update.  The same holds from every other
world over that store state, whatever its counters, log, clock and call
history: the outcome does not depend on the first attempt having failed. -/
theorem reconcile_conflict_then_retry {σ : Type} (r : NewResourceReconciler σ)
    (req : Request) (w : World σ) (obj obj2 : NewResource) (e : Error) (s s2 : σ)
    (store : σ) (fresh fresh2 : NewResource) (t t2 : σ)
    (hGet : r.Get req.NamespacedName NewResource.zero w.store = (obj, none, s))
    (hUpd : r.StatusUpdate obj.setReady s = (obj2, some e, s2))
    (_hConflict : IsConflict e = true)
    (hGetFresh : r.Get req.NamespacedName NewResource.zero store = (fresh, none, t))
    (hUpdFresh : r.StatusUpdate fresh.setReady t = (fresh2, none, t2)) :
    (Reconcile r req w).1 = (Result.empty, some e)
    ∧ (Reconcile r req w).1.2 ≠ none
    ∧ (Reconcile r req { (Reconcile r req w).2 with store := store }).1 = (Result.empty, none)
    ∧ (Reconcile r req { (Reconcile r req w).2 with store := store }).2.calls
        = (Reconcile r req w).2.calls
            ++ [Call.Get req.NamespacedName, Call.StatusUpdate fresh.setReady]
    ∧ fresh.setReady.Status.Ready = true
    ∧ (Reconcile r req { (Reconcile r req w).2 with store := store }).2.store = t2
    ∧ (∀ w2 : World σ,
        (Reconcile r req { w2 with store := store }).1 = (Result.empty, none)
        ∧ (Reconcile r req { w2 with store := store }).2.calls
            = w2.calls ++ [Call.Get req.NamespacedName, Call.StatusUpdate fresh.setReady]
        ∧ (Reconcile r req { w2 with store := store }).2.store = t2) := by
  have hAny : ∀ w2 : World σ,
      (Reconcile r req { w2 with store := store }).1 = (Result.empty, none)
      ∧ (Reconcile r req { w2 with store := store }).2.calls
          = w2.calls ++ [Call.Get req.NamespacedName, Call.StatusUpdate fresh.setReady]
      ∧ (Reconcile r req { w2 with store := store }).2.store = t2 := by
    intro w2
    rw [Reconcile_success r req { w2 with store := store } fresh fresh2 t t2 hGetFresh hUpdFresh]
    simp [afterReconcile]
  have hFirst : (Reconcile r req w).1 = (Result.empty, some e) := by
    rw [Reconcile_updateError r req w obj obj2 e s s2 hGet hUpd]
  refine ⟨hFirst, ?_, (hAny _).1, (hAny _).2.1, rfl, (hAny _).2.2, hAny⟩
  rw [hFirst]
  simp

/-- The witness of C6: the mock client rejects the first status update with a
conflict, and accepts the second once the conflict is gone. -/
theorem reconcile_conflict_then_retry_witness :
    IsConflict conflictError = true
    ∧ (Reconcile mockReconciler testRequest (testWorld conflictMock)).1
        = (Result.empty, some conflictError)
    ∧ (Reconcile mockReconciler testRequest
        { (Reconcile mockReconciler testRequest (testWorld conflictMock)).2
            with store := okMock }).1 = (Result.empty, none) :=
  have h := reconcile_conflict_then_retry mockReconciler testRequest (testWorld conflictMock)
    testResource testResource.setReady conflictError conflictMock conflictMock
    okMock testResource testResource.setReady okMock okMock rfl rfl rfl rfl rfl
  ⟨rfl, h.1, h.2.2.1⟩

/-! ## What reaches the store -/

/-- C10: every Reconcile invocation issues one Get and then, only when that
Get returned no error, exactly one status update; on the not-found and
Get-error paths it issues the Get alone.  The object handed to the status
update is the object Get returned with Status.Ready set to true, its type
and object metadata (name, namespace, resourceVersion, generation) and its
Spec (Foo, ReconcileTrigger) as fetched. -/
theorem reconcile_calls_frame {σ : Type} (r : NewResourceReconciler σ) (req : Request)
    (w : World σ) (o : NewResource) :
    (Reconcile r req w).2.calls
        = w.calls ++
          (match (r.Get req.NamespacedName NewResource.zero w.store).2.1 with
           | none =>
             [Call.Get req.NamespacedName,
              Call.StatusUpdate (r.Get req.NamespacedName NewResource.zero w.store).1.setReady]
           | some _ => [Call.Get req.NamespacedName])
    ∧ o.setReady.Status.Ready = true
    ∧ o.setReady.objectMeta.Name = o.objectMeta.Name
    ∧ o.setReady.objectMeta.Namespace = o.objectMeta.Namespace
    ∧ o.setReady.objectMeta.ResourceVersion = o.objectMeta.ResourceVersion
    ∧ o.setReady.objectMeta.Generation = o.objectMeta.Generation
    ∧ o.setReady.Spec.Foo = o.Spec.Foo
    ∧ o.setReady.Spec.ReconcileTrigger = o.Spec.ReconcileTrigger
    ∧ o.setReady.typeMeta = o.typeMeta := by
  refine ⟨?_, rfl, rfl, rfl, rfl, rfl, rfl, rfl, rfl⟩
  rcases Reconcile_paths r req w with ⟨obj, e, s, hGet, hNF⟩ | ⟨obj, e, s, hGet, hNF⟩
    | ⟨obj, obj2, e, s, s2, hGet, hUpd⟩ | ⟨obj, obj2, s, s2, hGet, hUpd⟩
  · rw [Reconcile_notFound r req w obj e s hGet hNF, hGet]
    simp [afterReconcile]
  · rw [Reconcile_getError r req w obj e s hGet hNF, hGet]
    simp [afterReconcile]
  · rw [Reconcile_updateError r req w obj obj2 e s s2 hGet hUpd, hGet]
    simp [afterReconcile]
  · rw [Reconcile_success r req w obj obj2 s s2 hGet hUpd, hGet]
    simp [afterReconcile]

/-! ## Metrics accounting -/

theorem metricsInv_init {σ : Type} (store : σ) (readings : Nat → Int) :
    MetricsInv (initWorld store readings) := by
  simp [MetricsInv, initWorld, World.total, World.errors, CounterVec.value, CounterVec.sum,
    reconcileTotalCounter, reconcileErrorsCounter, childValue]

/-- What one invocation does to the collectors. -/
theorem Reconcile_metrics_step {σ : Type} (r : NewResourceReconciler σ) (req : Request)
    (w : World σ) :
    (Reconcile r req w).2.total "started" = w.total "started" + 1
    ∧ (((Reconcile r req w).2.total "success" = w.total "success" + 1
          ∧ (Reconcile r req w).2.total "not_found" = w.total "not_found"
          ∧ (Reconcile r req w).2.total "error" = w.total "error"
          ∧ (Reconcile r req w).2.reconcileErrorsCounter = w.reconcileErrorsCounter)
        ∨ ((Reconcile r req w).2.total "success" = w.total "success"
          ∧ (Reconcile r req w).2.total "not_found" = w.total "not_found" + 1
          ∧ (Reconcile r req w).2.total "error" = w.total "error"
          ∧ (Reconcile r req w).2.reconcileErrorsCounter = w.reconcileErrorsCounter)
        ∨ ((Reconcile r req w).2.total "success" = w.total "success"
          ∧ (Reconcile r req w).2.total "not_found" = w.total "not_found"
          ∧ (Reconcile r req w).2.total "error" = w.total "error" + 1
          ∧ ((Reconcile r req w).2.reconcileErrorsCounter
                = w.reconcileErrorsCounter.inc ["NewResource", "get_resource"]
              ∨ (Reconcile r req w).2.reconcileErrorsCounter
                = w.reconcileErrorsCounter.inc ["NewResource", "status_update"])))
    ∧ (Reconcile r req w).2.reconcileTotalCounter.sum = w.reconcileTotalCounter.sum + 2
    ∧ (Reconcile r req w).2.durations = w.durations + 1
    ∧ (Reconcile r req w).2.reconcileDurationHistogram.total
        = w.reconcileDurationHistogram.total + 1 := by
  rcases Reconcile_paths r req w with ⟨obj, e, s, hGet, hNF⟩ | ⟨obj, e, s, hGet, hNF⟩
    | ⟨obj, obj2, e, s, s2, hGet, hUpd⟩ | ⟨obj, obj2, s, s2, hGet, hUpd⟩
  · rw [Reconcile_notFound r req w obj e s hGet hNF]
    simp [afterReconcile, World.total, World.durations, CounterVec.value_inc_self,
      CounterVec.value_inc_ne, CounterVec.sum_inc, HistogramVec.count_observe_self,
      HistogramVec.total_observe]
  · rw [Reconcile_getError r req w obj e s hGet hNF]
    simp [afterReconcile, World.total, World.durations, CounterVec.value_inc_self,
      CounterVec.value_inc_ne, CounterVec.sum_inc, HistogramVec.count_observe_self,
      HistogramVec.total_observe]
  · rw [Reconcile_updateError r req w obj obj2 e s s2 hGet hUpd]
    simp [afterReconcile, World.total, World.durations, CounterVec.value_inc_self,
      CounterVec.value_inc_ne, CounterVec.sum_inc, HistogramVec.count_observe_self,
      HistogramVec.total_observe]
  · rw [Reconcile_success r req w obj obj2 s s2 hGet hUpd]
    simp [afterReconcile, World.total, World.durations, CounterVec.value_inc_self,
      CounterVec.value_inc_ne, CounterVec.sum_inc, HistogramVec.count_observe_self,
      HistogramVec.total_observe]

theorem metricsInv_step {σ : Type} (r : NewResourceReconciler σ) (req : Request)
    (w : World σ) (h : MetricsInv w) : MetricsInv (Reconcile r req w).2 := by
  obtain ⟨h1, h2, h3⟩ := h
  obtain ⟨hs, hcase, -, -, -⟩ := Reconcile_metrics_step r req w
  unfold MetricsInv
  rcases hcase with ⟨a, b, c, d⟩ | ⟨a, b, c, d⟩ | ⟨a, b, c, d⟩
  · rw [hs, a, b, c]
    simp only [World.errors, d]
    simp only [World.errors] at h3
    omega
  · rw [hs, a, b, c]
    simp only [World.errors, d]
    simp only [World.errors] at h3
    omega
  · rw [hs, a, b, c]
    simp only [World.errors] at h3
    rcases d with d | d
    · simp only [World.errors, d, CounterVec.sum_inc, CounterVec.value_inc_self]
      rw [CounterVec.value_inc_ne _ _ ["NewResource", "status_update"] (by decide),
        CounterVec.value_inc_ne _ _ ["NewResource", "strategy"] (by decide)]
      omega
    · simp only [World.errors, d, CounterVec.sum_inc, CounterVec.value_inc_self]
      rw [CounterVec.value_inc_ne _ _ ["NewResource", "get_resource"] (by decide),
        CounterVec.value_inc_ne _ _ ["NewResource", "strategy"] (by decide)]
      omega

theorem metricsInv_reconcileAll {σ : Type} (r : NewResourceReconciler σ)
    (reqs : List Request) (w : World σ) (h : MetricsInv w) :
    MetricsInv (reconcileAll r reqs w) := by
  induction reqs generalizing w with
  | nil => exact h
  | cons req reqs ih => exact ih _ (metricsInv_step r req w h)

theorem reconcileAll_counts {σ : Type} (r : NewResourceReconciler σ)
    (reqs : List Request) (w : World σ) :
    (reconcileAll r reqs w).total "started" = w.total "started" + reqs.length
    ∧ (reconcileAll r reqs w).durations = w.durations + reqs.length := by
  induction reqs generalizing w with
  | nil => simp [reconcileAll]
  | cons req reqs ih =>
    obtain ⟨hs, -, -, hd, -⟩ := Reconcile_metrics_step r req w
    obtain ⟨i1, i2⟩ := ih (Reconcile r req w).2
    simp only [reconcileAll, List.length_cons]
    rw [i1, i2, hs, hd]
    omega

/-- C7: every Reconcile invocation, whatever its outcome, increments the
started result of controller_reconcile_total exactly once, increments exactly
one of the results success, not_found and error, by exactly 1 (two increments
on the whole vector), and adds exactly one observation to
controller_reconcile_duration_seconds.  After any sequence of completed
invocations from process start, started equals success + not_found + error,
the error result equals the sum of controller_reconcile_errors_total over its
labels, which is get_resource + status_update + strategy, and started and the
number of observations both equal the number of invocations. -/
theorem reconcile_metrics_accounting {σ : Type} (r : NewResourceReconciler σ)
    (req : Request) (w : World σ) (reqs : List Request) (store : σ) (readings : Nat → Int) :
    ((Reconcile r req w).2.total "started" = w.total "started" + 1
      ∧ (((Reconcile r req w).2.total "success" = w.total "success" + 1
            ∧ (Reconcile r req w).2.total "not_found" = w.total "not_found"
            ∧ (Reconcile r req w).2.total "error" = w.total "error")
          ∨ ((Reconcile r req w).2.total "success" = w.total "success"
            ∧ (Reconcile r req w).2.total "not_found" = w.total "not_found" + 1
            ∧ (Reconcile r req w).2.total "error" = w.total "error")
          ∨ ((Reconcile r req w).2.total "success" = w.total "success"
            ∧ (Reconcile r req w).2.total "not_found" = w.total "not_found"
            ∧ (Reconcile r req w).2.total "error" = w.total "error" + 1))
      ∧ (Reconcile r req w).2.reconcileTotalCounter.sum = w.reconcileTotalCounter.sum + 2
      ∧ (Reconcile r req w).2.durations = w.durations + 1
      ∧ (Reconcile r req w).2.reconcileDurationHistogram.total
          = w.reconcileDurationHistogram.total + 1)
    ∧ ((reconcileAll r reqs (initWorld store readings)).total "started"
          = (reconcileAll r reqs (initWorld store readings)).total "success"
            + (reconcileAll r reqs (initWorld store readings)).total "not_found"
            + (reconcileAll r reqs (initWorld store readings)).total "error"
      ∧ (reconcileAll r reqs (initWorld store readings)).total "error"
          = (reconcileAll r reqs (initWorld store readings)).reconcileErrorsCounter.sum
      ∧ (reconcileAll r reqs (initWorld store readings)).reconcileErrorsCounter.sum
          = (reconcileAll r reqs (initWorld store readings)).errors "get_resource"
            + (reconcileAll r reqs (initWorld store readings)).errors "status_update"
            + (reconcileAll r reqs (initWorld store readings)).errors "strategy"
      ∧ (reconcileAll r reqs (initWorld store readings)).total "started" = reqs.length
      ∧ (reconcileAll r reqs (initWorld store readings)).durations = reqs.length) := by
  obtain ⟨hs, hcase, hsum, hd, ht⟩ := Reconcile_metrics_step r req w
  have hInv := metricsInv_reconcileAll r reqs _ (metricsInv_init store readings)
  obtain ⟨c1, c2⟩ := reconcileAll_counts r reqs (initWorld store readings)
  have z1 : (initWorld store readings).total "started" = 0 := by
    simp [initWorld, World.total, CounterVec.value, reconcileTotalCounter, childValue]
  have z2 : (initWorld store readings).durations = 0 := by
    simp [initWorld, World.durations, HistogramVec.count, reconcileDurationHistogram,
      childObservations]
  refine ⟨⟨hs, ?_, hsum, hd, ht⟩, hInv.1, hInv.2.1, hInv.2.2, by omega, by omega⟩
  rcases hcase with ⟨a, b, c, -⟩ | ⟨a, b, c, -⟩ | ⟨a, b, c, -⟩
  · exact Or.inl ⟨a, b, c⟩
  · exact Or.inr (Or.inl ⟨a, b, c⟩)
  · exact Or.inr (Or.inr ⟨a, b, c⟩)

/-! ## SetupWithManager and the global registry -/

/-- On a registry holding none of the three collectors, SetupWithManager
registers all three and returns what the controller build returns. -/
theorem SetupWithManager_fresh (mgr : Manager) (reg : Registry)
    (h1 : "controller_reconcile_total" ∉ reg)
    (h2 : "controller_reconcile_duration_seconds" ∉ reg)
    (h3 : "controller_reconcile_errors_total" ∉ reg) :
    SetupWithManager mgr reg
      = (mgr.Complete,
          reg ++ ["controller_reconcile_total", "controller_reconcile_duration_seconds",
            "controller_reconcile_errors_total"]) := by
  simp [SetupWithManager, Register, reconcileTotalCounter, reconcileDurationHistogram,
    reconcileErrorsCounter, h1, h2, h3]

/-- Once controller_reconcile_total is registered, SetupWithManager fails with
AlreadyRegisteredError whatever the manager, and leaves the registry as it was. -/
theorem SetupWithManager_registered (mgr : Manager) (reg : Registry)
    (h : "controller_reconcile_total" ∈ reg) :
    SetupWithManager mgr reg = (some AlreadyRegisteredError, reg) := by
  simp [SetupWithManager, Register, reconcileTotalCounter, h]

/-- C8 at its failing input: with a manager whose controller build succeeds,
the first SetupWithManager of the process returns no error and registers the
three collectors, and a second SetupWithManager in the same process returns
AlreadyRegisteredError, from the registration of the first collector. -/
theorem setupWithManager_second_call_fails :
    (SetupWithManager { Complete := none } []).1 = none
    ∧ (SetupWithManager { Complete := none } []).2
        = ["controller_reconcile_total", "controller_reconcile_duration_seconds",
           "controller_reconcile_errors_total"]
    ∧ (SetupWithManager { Complete := none }
        (SetupWithManager { Complete := none } []).2).1 = some AlreadyRegisteredError := by
  decide



/-! ## The work queue keeps its sets consistent -/

theorem add_started (d : Dispatcher) (k k2 : NamespacedName) :
    (d.step (Action.add k)).started k2 = d.started k2
    ∧ (d.step (Action.add k)).completed k2 = d.completed k2 := ⟨rfl, rfl⟩

end NewController
